import Mathlib

/-!
Verification development for the draftsmith textual outline client.

The data model and the operations are shallow embeddings of the Python
source: `NoteNode` mirrors `api.TreeNote` (id, title, optional content,
ordered children); the tree-projection functions mirror
`note_managers.py` (`filter_notes_by_query`, `filter_notes_by_ids`,
`flatten_filtered_notes`); the fold, paste, demote and IPC actions mirror
`tui.py`; the tab operations mirror `tab_manager.py`.  Effectful code is
embedded by passing the environment (which API calls fail, the socket
outcome) explicitly and returning a trace of API calls and notifications.
-/

/-- One vertex of the projected note hierarchy, mirroring `api.TreeNote`:
`id`, `title`, optional `content`, and the ordered list of children. -/
inductive NoteNode : Type where
  | mk (id : Nat) (title : String) (content : Option String)
      (children : List NoteNode)

def NoteNode.id : NoteNode → Nat
  | .mk i _ _ _ => i

def NoteNode.title : NoteNode → String
  | .mk _ t _ _ => t

def NoteNode.content : NoteNode → Option String
  | .mk _ _ c _ => c

def NoteNode.children : NoteNode → List NoteNode
  | .mk _ _ _ ch => ch

/-- The character-set match of `filter_notes_by_query`
(note_managers.py lines 250-252): every character of the lowercased
query occurs in the lowercased title. -/
def titleMatchesQuery (title query : String) : Bool :=
  (query.data.map Char.toLower).all fun c =>
    (title.data.map Char.toLower).contains c

/-- `note_managers.filter_notes_by_query` (lines 237-263): empty query
returns the input unchanged; otherwise a note is kept when its title
matches the query character set or its recursively filtered children are
non-empty, and the kept note carries exactly those filtered children. -/
def filter_notes_by_query (notes : List NoteNode) (query : String) :
    List NoteNode :=
  if query = "" then notes
  else
    match notes with
    | [] => []
    | NoteNode.mk i t c ch :: rest =>
      let filtered_children := filter_notes_by_query ch query
      let title_matches := titleMatchesQuery t query
      let filtered_rest := filter_notes_by_query rest query
      if title_matches || !filtered_children.isEmpty then
        NoteNode.mk i t c filtered_children :: filtered_rest
      else
        filtered_rest

/-- `note_managers.filter_notes_by_ids` (lines 266-285): a note is kept
when its id is in `matching_ids` or its recursively filtered children are
non-empty; no empty-set short circuit exists. -/
def filter_notes_by_ids (notes : List NoteNode) (matching_ids : Finset Nat) :
    List NoteNode :=
  match notes with
  | [] => []
  | NoteNode.mk i t c ch :: rest =>
    let filtered_children := filter_notes_by_ids ch matching_ids
    let filtered_rest := filter_notes_by_ids rest matching_ids
    if decide (i ∈ matching_ids) || !filtered_children.isEmpty then
      NoteNode.mk i t c filtered_children :: filtered_rest
    else
      filtered_rest

/-- `note_managers.flatten_filtered_notes` (lines 288-306): a childless
note is re-emitted as a fresh childless node; a note with children
contributes only its children's collection, depth first. -/
def flatten_filtered_notes : List NoteNode → List NoteNode
  | [] => []
  | NoteNode.mk i t c [] :: rest =>
    NoteNode.mk i t c [] :: flatten_filtered_notes rest
  | NoteNode.mk _ _ _ (x :: xs) :: rest =>
    flatten_filtered_notes (x :: xs) ++ flatten_filtered_notes rest

/-- Structural induction principle for forests of `NoteNode`s, descending
both into the children of the head node and into the tail. -/
theorem NoteNode.forestRec (P : List NoteNode → Prop) (h0 : P [])
    (h1 : ∀ i t c ch rest, P ch → P rest → P (NoteNode.mk i t c ch :: rest)) :
    ∀ ns, P ns
  | [] => h0
  | NoteNode.mk i t c ch :: rest =>
    h1 i t c ch rest (NoteNode.forestRec P h0 h1 ch)
      (NoteNode.forestRec P h0 h1 rest)

/-- Spec-side reading of the fuzzy filter ("some descendant, recursively,
matches"): a forest contains a match when some node's title matches the
query character set or some descendant's does. -/
def specAnyMatch (query : String) : List NoteNode → Bool
  | [] => false
  | NoteNode.mk _ t _ ch :: rest =>
    (titleMatchesQuery t query || specAnyMatch query ch) || specAnyMatch query rest

/-- Spec-side reading of `filterByQuery` for a non-empty query: a node is
retained iff its title matches or some descendant (recursively) matches,
and a retained node keeps exactly its retained children, in order. -/
def specFilterByQuery (query : String) : List NoteNode → List NoteNode
  | [] => []
  | NoteNode.mk i t c ch :: rest =>
    if titleMatchesQuery t query || specAnyMatch query ch then
      NoteNode.mk i t c (specFilterByQuery query ch) :: specFilterByQuery query rest
    else
      specFilterByQuery query rest

theorem filter_notes_by_query_eq_spec_aux (query : String) (hq : query ≠ "") :
    ∀ ns : List NoteNode,
      filter_notes_by_query ns query = specFilterByQuery query ns ∧
        (filter_notes_by_query ns query).isEmpty = !specAnyMatch query ns := by
  refine NoteNode.forestRec _ ?_ ?_
  · simp [filter_notes_by_query, specFilterByQuery, specAnyMatch, hq]
  · intro i t c ch rest ih_ch ih_rest
    obtain ⟨ih_ch_eq, ih_ch_empty⟩ := ih_ch
    obtain ⟨ih_rest_eq, ih_rest_empty⟩ := ih_rest
    have hempty : (specFilterByQuery query ch).isEmpty = !specAnyMatch query ch :=
      ih_ch_eq ▸ ih_ch_empty
    have hrest_empty :
        (specFilterByQuery query rest).isEmpty = !specAnyMatch query rest :=
      ih_rest_eq ▸ ih_rest_empty
    constructor
    · simp only [filter_notes_by_query, if_neg hq, ih_ch_eq, ih_rest_eq, hempty,
        Bool.not_not, specFilterByQuery]
    · simp only [filter_notes_by_query, if_neg hq, ih_ch_eq, ih_rest_eq, hempty,
        Bool.not_not, specAnyMatch]
      cases hm : titleMatchesQuery t query || specAnyMatch query ch <;>
        simp [hm, hrest_empty]

/-- Depth-first preorder traversal of a forest: each node, then its
subtree, then its right siblings. -/
def dfsPreorder : List NoteNode → List NoteNode
  | [] => []
  | NoteNode.mk i t c ch :: rest =>
    NoteNode.mk i t c ch :: (dfsPreorder ch ++ dfsPreorder rest)

def isChildless (n : NoteNode) : Bool := n.children.isEmpty

def clearChildren : NoteNode → NoteNode
  | NoteNode.mk i t c _ => NoteNode.mk i t c []

theorem flatten_eq_leaves_aux :
    ∀ ns : List NoteNode,
      flatten_filtered_notes ns =
        ((dfsPreorder ns).filter isChildless).map clearChildren := by
  refine NoteNode.forestRec _ (by simp [flatten_filtered_notes, dfsPreorder]) ?_
  intro i t c ch rest ih_ch ih_rest
  cases ch with
  | nil =>
    simp [flatten_filtered_notes, dfsPreorder, isChildless, clearChildren,
      NoteNode.children, ih_rest]
  | cons x xs =>
    simp [flatten_filtered_notes, dfsPreorder, isChildless,
      NoteNode.children, ih_ch, ih_rest, List.filter_append]

/-- C1: for a non-empty query, `filter_notes_by_query` retains a node iff
its title contains every lowercase character of the query or some
descendant (recursively) does, and retained nodes keep exactly their
retained children in the original order. -/
theorem filter_notes_by_query_matches_spec (notes : List NoteNode)
    (query : String) (hq : query ≠ "") :
    filter_notes_by_query notes query = specFilterByQuery query notes :=
  (filter_notes_by_query_eq_spec_aux query hq notes).1

/-- Witness for C1, the spec's scenario: on the tree `A{B{}, C{D{}}}` the
query `"d"` retains `A`, `C` and `D` and drops `B`. -/
theorem filter_notes_by_query_matches_spec_witness :
    filter_notes_by_query
        [NoteNode.mk 1 "A" none
          [NoteNode.mk 2 "B" none [],
           NoteNode.mk 3 "C" none [NoteNode.mk 4 "D" none []]]] "d" =
      [NoteNode.mk 1 "A" none
        [NoteNode.mk 3 "C" none [NoteNode.mk 4 "D" none []]]] :=
  (filter_notes_by_query_matches_spec _ "d" (by simp)).trans
    (by simp [specFilterByQuery, specAnyMatch, titleMatchesQuery])

/-- C2: the empty query is the identity: `filter_notes_by_query T "" = T`. -/
theorem filter_notes_by_query_empty_query_identity (notes : List NoteNode) :
    filter_notes_by_query notes "" = notes := by
  cases notes with
  | nil => simp [filter_notes_by_query]
  | cons h rest => cases h with
    | mk i t c ch => simp [filter_notes_by_query]

/-- C6: flattening a filtered forest yields exactly its childless nodes in
depth-first order, each re-emitted with an empty children list. -/
theorem flatten_filtered_eq_childless_dfs (T : List NoteNode) (q : String) :
    flatten_filtered_notes (filter_notes_by_query T q) =
      ((dfsPreorder (filter_notes_by_query T q)).filter isChildless).map
        clearChildren :=
  flatten_eq_leaves_aux _

/-- C10: an empty id set prunes the entire tree (in contrast with
`filter_notes_by_query`, which is the identity on the empty query). -/
theorem filter_notes_by_ids_empty_prunes_all (notes : List NoteNode) :
    filter_notes_by_ids notes ∅ = [] ∧
      filter_notes_by_query notes "" = notes := by
  constructor
  · refine NoteNode.forestRec (fun ns => filter_notes_by_ids ns ∅ = [])
      (by simp [filter_notes_by_ids]) ?_ notes
    intro i t c ch rest ih_ch ih_rest
    simp [filter_notes_by_ids, ih_ch, ih_rest]
  · cases notes with
    | nil => simp [filter_notes_by_query]
    | cons h rest => cases h with
      | mk i t c ch => simp [filter_notes_by_query]


/-- `tui._get_max_depth` restricted to a forest: `level` is the level of
the nodes in the list (the widget root is level 0, top notes level 1); a
childless node reports its own level, a node with children the maximum of
its children's reports one level deeper. -/
def get_max_depth_forest (level : Nat) : List NoteNode → Nat
  | [] => 0
  | NoteNode.mk _ _ _ [] :: rest =>
    max level (get_max_depth_forest level rest)
  | NoteNode.mk _ _ _ (x :: xs) :: rest =>
    max (get_max_depth_forest (level + 1) (x :: xs))
      (get_max_depth_forest level rest)

/-- `tui._get_max_depth(tree.root)`: the virtual root is level 0 and is
itself a leaf when the forest is empty; otherwise the maximum over the
top-level notes, which sit at level 1. -/
def rootMaxDepth (forest : List NoteNode) : Nat :=
  match forest with
  | [] => 0
  | _ :: _ => get_max_depth_forest 1 forest

/-- The visible effect of a fold action on the tree widget: either
`tree.root.collapse_all()` or `_fold_to_level(tree.root, level)`. -/
inductive FoldEffect : Type where
  | collapseAll
  | foldTo (level : Nat)
deriving DecidableEq

/-- `tui.action_fold_cycle` (lines 320-341): double the fold level (or go
0 to 1), then either wrap to 0 with a full collapse when the new level
exceeds the tree's maximum depth, or apply the new fold level. Returns
the new `current_fold_level` and the widget effect. -/
def action_fold_cycle (forest : List NoteNode) (current_fold_level : Nat) :
    Nat × FoldEffect :=
  let level := if current_fold_level = 0 then 1 else current_fold_level * 2
  let max_depth := rootMaxDepth forest
  if level > max_depth then (0, FoldEffect.collapseAll)
  else (level, FoldEffect.foldTo level)

/-- Spec-side reading of `cycleFoldForward`: `0→1`, otherwise `L→L*2`;
if the result exceeds the maximum leaf depth, reset to 0 and fully
collapse. -/
def cycleFoldForwardSpec (maxDepth level : Nat) : Nat × FoldEffect :=
  let next := if level = 0 then 1 else level * 2
  if next > maxDepth then (0, FoldEffect.collapseAll)
  else (next, FoldEffect.foldTo next)

def nextFoldLevel (m l : Nat) : Nat := (cycleFoldForwardSpec m l).1

theorem nextFoldLevel_eq (m l : Nat) :
    nextFoldLevel m l =
      if (if l = 0 then 1 else l * 2) > m then 0
      else (if l = 0 then 1 else l * 2) := by
  simp only [nextFoldLevel, cycleFoldForwardSpec, apply_ite Prod.fst]

theorem nextFoldLevel_iterate_pow (m : Nat) (hm : 1 ≤ m) :
    ∀ j, 1 ≤ j → j ≤ Nat.clog 2 (m + 1) →
      (nextFoldLevel m)^[j] 0 = 2 ^ (j - 1) := by
  intro j
  induction j with
  | zero => intro h; omega
  | succ k ih =>
    intro _ hle
    rcases Nat.eq_zero_or_pos k with h0 | hk
    · subst h0
      simp [Function.iterate_one, nextFoldLevel_eq, Nat.not_lt.2 hm]
    · have hkc : k ≤ Nat.clog 2 (m + 1) := le_trans (Nat.le_succ k) hle
      rw [Function.iterate_succ_apply', ih hk hkc]
      have hpow : (2 : Nat) ^ (Nat.clog 2 (m + 1) - 1) < m + 1 :=
        Nat.pow_pred_clog_lt_self (by norm_num) (by omega)
      have h2 : (2 : Nat) ^ k ≤ m := by
        have hk1 : k ≤ Nat.clog 2 (m + 1) - 1 := by omega
        have := Nat.pow_le_pow_right (show 1 ≤ 2 by norm_num) hk1
        omega
      have hne : (2 : Nat) ^ (k - 1) ≠ 0 := (Nat.pos_pow_of_pos _ (by norm_num)).ne'
      have hdouble : (2 : Nat) ^ (k - 1) * 2 = 2 ^ k := by
        rw [← pow_succ]
        congr 1
        omega
      rw [nextFoldLevel_eq]
      simp [hne, hdouble, Nat.not_lt.2 h2]

theorem nextFoldLevel_iterate_wraps (m : Nat) :
    (nextFoldLevel m)^[Nat.clog 2 (m + 1) + 1] 0 = 0 := by
  rcases Nat.eq_zero_or_pos m with h0 | hm
  · subst h0
    simp [Nat.clog_one_right, Function.iterate_one, nextFoldLevel_eq]
  · have hc : 1 ≤ Nat.clog 2 (m + 1) :=
      Nat.clog_pos (by norm_num) (by omega)
    rw [Function.iterate_succ_apply', nextFoldLevel_iterate_pow m hm _ hc le_rfl]
    have hle : m + 1 ≤ 2 ^ Nat.clog 2 (m + 1) := Nat.le_pow_clog (by norm_num) _
    have hne : (2 : Nat) ^ (Nat.clog 2 (m + 1) - 1) ≠ 0 :=
      (Nat.pos_pow_of_pos _ (by norm_num)).ne'
    have hdouble :
        (2 : Nat) ^ (Nat.clog 2 (m + 1) - 1) * 2 = 2 ^ Nat.clog 2 (m + 1) := by
      rw [← pow_succ]
      congr 1
      omega
    rw [nextFoldLevel_eq]
    simp [hne, hdouble]
    omega

/-- C4: `action_fold_cycle` maps fold level 0 to 1 and any other level L
to L*2; when the new level does not exceed the tree's maximum leaf depth
it is applied, and when it does exceed it the level wraps to 0 with a
full collapse (not a clamp at the maximum). -/
theorem action_fold_cycle_doubles_or_wraps (forest : List NoteNode)
    (level : Nat) :
    ((if level = 0 then 1 else level * 2) ≤ rootMaxDepth forest →
        action_fold_cycle forest level =
          ((if level = 0 then 1 else level * 2),
            FoldEffect.foldTo (if level = 0 then 1 else level * 2))) ∧
      (rootMaxDepth forest < (if level = 0 then 1 else level * 2) →
        action_fold_cycle forest level = (0, FoldEffect.collapseAll)) := by
  constructor
  · intro h
    simp [action_fold_cycle, Nat.not_lt.2 h]
  · intro h
    simp [action_fold_cycle, h]

/-- Witness for C4: on a two-level tree (`A` at level 1 with leaf child
`B` at level 2) a current fold level of 2 doubles to 4, exceeds the
maximum depth 2, and wraps to 0 with a full collapse. -/
theorem action_fold_cycle_doubles_or_wraps_witness :
    action_fold_cycle
        [NoteNode.mk 1 "A" none [NoteNode.mk 2 "B" none []]] 2 =
      (0, FoldEffect.collapseAll) :=
  (action_fold_cycle_doubles_or_wraps
      [NoteNode.mk 1 "A" none [NoteNode.mk 2 "B" none []]] 2).2
    (by simp [rootMaxDepth, get_max_depth_forest])

/-- C5: starting from fold level 0, applying `action_fold_cycle` exactly
`ceil(log2(maxDepth+1)) + 1` times (with `Nat.clog 2` as the ceiling
logarithm) returns the fold level to 0. -/
theorem action_fold_cycle_cycle_length (forest : List NoteNode) :
    (fun l => (action_fold_cycle forest l).1)^[
        Nat.clog 2 (rootMaxDepth forest + 1) + 1] 0 = 0 := by
  have h : (fun l => (action_fold_cycle forest l).1) =
      nextFoldLevel (rootMaxDepth forest) := rfl
  rw [h]
  exact nextFoldLevel_iterate_wraps _

/-- A structural API call issued by the UI actions against the note
service. -/
inductive ApiCall : Type where
  | detachNote (child : Nat)
  | attachNote (child parent : Nat)
deriving DecidableEq

/-- Which API calls raise, as observed by the UI: `detachRaises n` models
`detach_note_from_parent(n)` raising (e.g. the note has no parent), and
`attachRaises c p` models `attach_note_to_parent(c, p)` raising. -/
structure ApiEnv : Type where
  detachRaises : Nat → Bool
  attachRaises : Nat → Nat → Bool

inductive PasteOutcome : Type where
  | warnedNoMarks
  | moved (count : Nat)
  | errorNotified
deriving DecidableEq

structure PasteResult : Type where
  calls : List ApiCall
  marked_for_move : List Nat
  outcome : PasteOutcome
deriving DecidableEq

/-- The `for note_id in self.marked_for_move` loop of
`action_paste_as_children` (tui.py lines 654-664): each note is detached
(the detach's own failure is swallowed) and then, when a target note is
selected, attached to it; an attach failure propagates out of the loop.
Returns the calls issued and whether an exception escaped. -/
def paste_loop (env : ApiEnv) (target : Option Nat) :
    List Nat → List ApiCall × Bool
  | [] => ([], false)
  | note_id :: rest =>
    match target with
    | none =>
      let r := paste_loop env target rest
      (ApiCall.detachNote note_id :: r.1, r.2)
    | some t =>
      if env.attachRaises note_id t then
        ([ApiCall.detachNote note_id, ApiCall.attachNote note_id t], true)
      else
        let r := paste_loop env target rest
        (ApiCall.detachNote note_id :: ApiCall.attachNote note_id t :: r.1, r.2)

/-- `tui.action_paste_as_children` (lines 640-672), with the marked set
taken in iteration order: an empty marked set warns and does nothing;
otherwise the whole loop runs under one `try`, so an escaping attach
failure reaches the handler, skipping both `marked_for_move.clear()` and
the refresh — the marks survive and no further note is moved. -/
def action_paste_as_children (env : ApiEnv) (marked_for_move : List Nat)
    (target : Option Nat) : PasteResult :=
  if marked_for_move.isEmpty then
    { calls := [], marked_for_move := marked_for_move,
      outcome := PasteOutcome.warnedNoMarks }
  else
    let r := paste_loop env target marked_for_move
    if r.2 then
      { calls := r.1, marked_for_move := marked_for_move,
        outcome := PasteOutcome.errorNotified }
    else
      { calls := r.1, marked_for_move := [],
        outcome := PasteOutcome.moved marked_for_move.length }

/-- Counterexample to C3 as stated: with notes 1 and 2 marked and note 5
as target, if attaching note 1 raises then note 2 is never attached (the
loop aborts) and `marked_for_move` is not cleared — the operation is not
best-effort across attach failures. -/
theorem action_paste_as_children_aborts_on_attach_failure :
    action_paste_as_children
        ⟨fun _ => true, fun c _ => c == 1⟩ [1, 2] (some 5) =
      { calls := [ApiCall.detachNote 1, ApiCall.attachNote 1 5],
        marked_for_move := [1, 2],
        outcome := PasteOutcome.errorNotified } ∧
    ApiCall.attachNote 2 5 ∉
      (action_paste_as_children
          ⟨fun _ => true, fun c _ => c == 1⟩ [1, 2] (some 5)).calls ∧
    (action_paste_as_children
        ⟨fun _ => true, fun c _ => c == 1⟩ [1, 2] (some 5)).marked_for_move ≠
      [] := by
  refine ⟨?_, ?_, ?_⟩ <;> simp [action_paste_as_children, paste_loop]

theorem paste_loop_all_attaches_succeed (env : ApiEnv) (target : Nat) :
    ∀ marked : List Nat,
      (∀ n ∈ marked, env.attachRaises n target = false) →
      paste_loop env (some target) marked =
        (marked.flatMap
          (fun n => [ApiCall.detachNote n, ApiCall.attachNote n target]),
         false) := by
  intro marked
  induction marked with
  | nil => intro _; simp [paste_loop]
  | cons n rest ih =>
    intro h
    have hn : env.attachRaises n target = false := h n (by simp)
    have hrest := ih fun m hm => h m (by simp [hm])
    simp [paste_loop, hn, hrest]

/-- C3 amended: detach failures are swallowed per note, but the loop is
not best-effort across attach failures.  When every attach succeeds, each
marked note is detached then attached to the target in order and
`marked_for_move` ends empty; an attach failure instead aborts the
remaining moves and leaves `marked_for_move` uncleared (see the
counterexample). -/
theorem action_paste_as_children_success_path (env : ApiEnv)
    (marked : List Nat) (target : Nat) (hm : marked ≠ [])
    (hok : ∀ n ∈ marked, env.attachRaises n target = false) :
    action_paste_as_children env marked (some target) =
      { calls := marked.flatMap
          (fun n => [ApiCall.detachNote n, ApiCall.attachNote n target]),
        marked_for_move := [],
        outcome := PasteOutcome.moved marked.length } := by
  have hloop := paste_loop_all_attaches_succeed env target marked hok
  simp [action_paste_as_children, hm, hloop]

/-- Witness for C3's amended theorem: notes 1 and 2 marked, target 5,
every detach raising (and being swallowed), no attach failing: both notes
are detached then attached and the marks end empty. -/
theorem action_paste_as_children_success_path_witness :
    action_paste_as_children
        ⟨fun _ => true, fun _ _ => false⟩ [1, 2] (some 5) =
      { calls := [ApiCall.detachNote 1, ApiCall.attachNote 1 5,
          ApiCall.detachNote 2, ApiCall.attachNote 2 5],
        marked_for_move := [],
        outcome := PasteOutcome.moved 2 } :=
  (action_paste_as_children_success_path
      ⟨fun _ => true, fun _ _ => false⟩ [1, 2] 5 (by simp)
      (by intro n _; rfl)).trans (by simp)

inductive DemoteOutcome : Type where
  | noSelection
  | warnedNoPreviousSibling
  | demoted (prevId : Nat)
  | errorNotified
deriving DecidableEq

/-- Resolve the tree cursor: a path of child indices from the (virtual)
widget root yields the list of siblings under the cursor's parent and the
cursor's index among them, mirroring `parent_node.children` and
`siblings.index(current_node)` in `action_demote_note`. -/
def resolveCursor : List NoteNode → List Nat → Option (List NoteNode × Nat)
  | _, [] => none
  | siblings, [i] => if i < siblings.length then some (siblings, i) else none
  | siblings, i :: j :: rest =>
    match siblings.get? i with
    | none => none
    | some n => resolveCursor n.children (j :: rest)

/-- `tui.action_demote_note` (lines 995-1045): no selection warns; the
first sibling warns "No previous sibling to attach to" with no API call;
otherwise the note is detached (failure swallowed) and attached to the
immediately preceding sibling, an attach failure being reported as an
error notification. -/
def action_demote_note (env : ApiEnv) (forest : List NoteNode)
    (cursor : List Nat) : List ApiCall × DemoteOutcome :=
  match resolveCursor forest cursor with
  | none => ([], DemoteOutcome.noSelection)
  | some (siblings, current_index) =>
    if current_index = 0 then ([], DemoteOutcome.warnedNoPreviousSibling)
    else
      match siblings.get? current_index, siblings.get? (current_index - 1) with
      | some current_note, some previous_note =>
        let calls := [ApiCall.detachNote current_note.id,
          ApiCall.attachNote current_note.id previous_note.id]
        if env.attachRaises current_note.id previous_note.id then
          (calls, DemoteOutcome.errorNotified)
        else
          (calls, DemoteOutcome.demoted previous_note.id)
      | _, _ => ([], DemoteOutcome.noSelection)

/-- C7: demoting the first sibling under its parent produces only the
"no previous sibling" warning and issues no API calls; demoting a note
with a preceding sibling issues exactly a detach of the note followed by
an attach of the note under that immediately preceding sibling. -/
theorem action_demote_note_spec (env : ApiEnv) (forest : List NoteNode)
    (cursor : List Nat) (siblings : List NoteNode) (idx : Nat)
    (hres : resolveCursor forest cursor = some (siblings, idx)) :
    (idx = 0 →
      action_demote_note env forest cursor =
        ([], DemoteOutcome.warnedNoPreviousSibling)) ∧
    (∀ j cur prev, idx = j + 1 → siblings.get? idx = some cur →
      siblings.get? j = some prev →
      (action_demote_note env forest cursor).1 =
        [ApiCall.detachNote cur.id, ApiCall.attachNote cur.id prev.id]) := by
  constructor
  · intro h0
    subst h0
    simp [action_demote_note, hres]
  · intro j cur prev hidx hcur hprev
    subst hidx
    have hj : j + 1 - 1 = j := by omega
    simp only [action_demote_note, hres]
    rw [if_neg (by omega)]
    rw [hj, hcur, hprev]
    split
    · rename_i current previous hc hp
      injection hc with hc
      injection hp with hp
      subst hc
      subst hp
      split <;> rfl
    · split <;> rfl

/-- Witness for C7: in the forest `[A, B]` with the cursor on `B`
(path `[1]`), demote issues exactly `detach(B)` then `attach(B, A)`. -/
theorem action_demote_note_spec_witness :
    (action_demote_note ⟨fun _ => false, fun _ _ => false⟩
        [NoteNode.mk 1 "A" none [], NoteNode.mk 2 "B" none []] [1]).1 =
      [ApiCall.detachNote 2, ApiCall.attachNote 2 1] :=
  (action_demote_note_spec ⟨fun _ => false, fun _ _ => false⟩
      [NoteNode.mk 1 "A" none [], NoteNode.mk 2 "B" none []] [1]
      [NoteNode.mk 1 "A" none [], NoteNode.mk 2 "B" none []] 1
      (by simp [resolveCursor])).2
    0 (NoteNode.mk 2 "B" none []) (NoteNode.mk 1 "A" none []) rfl rfl rfl

/-- `tab_manager.TabManager` state: the list of tabs (abstracted to their
identities) and the active index. -/
structure TabManagerState : Type where
  tabs : List Nat
  current_tab_index : Nat
deriving DecidableEq

/-- `TabManager.switch_to_tab`: activates the target index when it is in
range `[0, len(tabs))`, otherwise does nothing. -/
def switch_to_tab (s : TabManagerState) (index : Nat) : TabManagerState :=
  if index < s.tabs.length then { s with current_tab_index := index } else s

/-- `TabManager.close_current_tab` (lines 58-63): when more than one tab
exists, pop the current tab, set the index to `max(0, index - 1)` (which
is exactly truncated Nat subtraction) and switch to it; otherwise do
nothing. -/
def close_current_tab (s : TabManagerState) : TabManagerState :=
  if 1 < s.tabs.length then
    switch_to_tab
      { tabs := s.tabs.eraseIdx s.current_tab_index,
        current_tab_index := s.current_tab_index - 1 }
      (s.current_tab_index - 1)
  else s

/-- `TabManager.create_new_tab`: appends a fresh tab and switches to it
(widget bookkeeping elided). -/
def create_new_tab (s : TabManagerState) (tab : Nat) : TabManagerState :=
  switch_to_tab { s with tabs := s.tabs ++ [tab] } s.tabs.length

theorem switch_to_tab_same (tabs : List Nat) (v : Nat) :
    switch_to_tab ⟨tabs, v⟩ v = ⟨tabs, v⟩ := by
  unfold switch_to_tab
  split <;> rfl

/-- C8: the tab operations preserve "at least one tab exists":
`close_current_tab` removes the active tab and activates
`max(0, index - 1)` when more than one tab exists, is a no-op when
exactly one remains, and never empties the tab list; `create_new_tab`
and `switch_to_tab` cannot empty it either. -/
theorem close_current_tab_preserves_tab_invariant (s : TabManagerState)
    (hne : s.tabs ≠ []) (hidx : s.current_tab_index < s.tabs.length) :
    (close_current_tab s).tabs ≠ [] ∧
    (s.tabs.length = 1 → close_current_tab s = s) ∧
    (1 < s.tabs.length →
      close_current_tab s =
        ⟨s.tabs.eraseIdx s.current_tab_index, s.current_tab_index - 1⟩) ∧
    (∀ t, (create_new_tab s t).tabs ≠ []) ∧
    (∀ i, (switch_to_tab s i).tabs = s.tabs) := by
  have herase : (s.tabs.eraseIdx s.current_tab_index).length + 1 =
      s.tabs.length := List.length_eraseIdx_add_one hidx
  refine ⟨?_, ?_, ?_, ?_, ?_⟩
  · unfold close_current_tab
    split
    · rename_i hgt
      rw [switch_to_tab_same]
      intro hnil
      have hnil' : s.tabs.eraseIdx s.current_tab_index = [] := hnil
      rw [hnil'] at herase
      simp at herase
      omega
    · exact hne
  · intro h1
    unfold close_current_tab
    rw [if_neg (by omega)]
  · intro hgt
    unfold close_current_tab
    rw [if_pos hgt, switch_to_tab_same]
  · intro t
    unfold create_new_tab switch_to_tab
    split <;> simp
  · intro i
    unfold switch_to_tab
    split <;> rfl

/-- Witness for C8: closing with tabs `[10, 20]` active at index 1 keeps
one tab and activates index 0; closing the sole remaining tab `[10]` is a
no-op. -/
theorem close_current_tab_preserves_tab_invariant_witness :
    close_current_tab ⟨[10, 20], 1⟩ = ⟨[10], 0⟩ ∧
      close_current_tab ⟨[10], 0⟩ = ⟨[10], 0⟩ :=
  ⟨((close_current_tab_preserves_tab_invariant ⟨[10, 20], 1⟩ (by simp)
        (by simp)).2.2.1 (by simp)).trans (by simp [List.eraseIdx]),
   (close_current_tab_preserves_tab_invariant ⟨[10], 0⟩ (by simp)
        (by simp)).2.1 (by simp)⟩

/-- Notification severities of the view toolkit (`notify(severity=...)`;
the default severity is "information"). -/
inductive Severity : Type where
  | information
  | warning
  | error
deriving DecidableEq

structure Notification : Type where
  message : String
  severity : Severity
deriving DecidableEq

/-- Result of the `sock.connect` attempt in `tui.connect_to_gui`:
success, `FileNotFoundError` (socket file absent) or
`ConnectionRefusedError` (no listener bound). -/
inductive ConnectAttempt : Type where
  | ok
  | fileNotFound
  | connectionRefused
deriving DecidableEq

/-- `tui.connect_to_gui` (lines 377-411): with no selected note it warns;
on success it notifies (only when not auto-syncing); a missing socket
file yields an error notification naming the socket path and the command
to start the preview; a refused connection yields the fixed error message
"Could not connect to GUI preview".  The function is total — every
failure becomes a notification, nothing escapes — and touches no other
state. -/
def connect_to_gui (attempt : ConnectAttempt) (socket_path : String)
    (cursor_note : Option Nat) (auto_sync_gui : Bool) : List Notification :=
  match cursor_note with
  | none => [⟨"No note selected", Severity.warning⟩]
  | some _ =>
    match attempt with
    | ConnectAttempt.ok =>
      if auto_sync_gui then []
      else [⟨"Connected to GUI preview", Severity.information⟩]
    | ConnectAttempt.fileNotFound =>
      [⟨"GUI preview not running. Start it with: python markdown_preview.py --socket-path "
          ++ socket_path, Severity.error⟩]
    | ConnectAttempt.connectionRefused =>
      [⟨"Could not connect to GUI preview", Severity.error⟩]

/-- Counterexample to C9 as stated: a refused connection (listener not
bound) produces the fixed error-severity message "Could not connect to
GUI preview", which neither names the socket path nor tells how to start
the receiver, and is not of warning severity. -/
theorem connect_to_gui_refused_lacks_path :
    connect_to_gui ConnectAttempt.connectionRefused "/tmp/draftsmith.sock"
        (some 42) false =
      [⟨"Could not connect to GUI preview", Severity.error⟩] ∧
    ¬ ("/tmp/draftsmith.sock".data <:+:
        "Could not connect to GUI preview".data) ∧
    (Severity.error ≠ Severity.warning) := by
  refine ⟨rfl, by decide, by decide⟩

/-- C9 amended: a connection failure never escapes and becomes exactly one
error notification; only the socket-file-absent case names the socket
path together with the command that starts the receiver, while a refused
connection yields the fixed message "Could not connect to GUI preview"
without the path. -/
theorem connect_to_gui_failure_notifications (socket_path : String)
    (note_id : Nat) (auto_sync_gui : Bool) :
    connect_to_gui ConnectAttempt.fileNotFound socket_path (some note_id)
        auto_sync_gui =
      [⟨"GUI preview not running. Start it with: python markdown_preview.py --socket-path "
          ++ socket_path, Severity.error⟩] ∧
    socket_path.data <:+:
      ("GUI preview not running. Start it with: python markdown_preview.py --socket-path "
          ++ socket_path).data ∧
    connect_to_gui ConnectAttempt.connectionRefused socket_path
        (some note_id) auto_sync_gui =
      [⟨"Could not connect to GUI preview", Severity.error⟩] := by
  refine ⟨rfl, ?_, rfl⟩
  refine ⟨"GUI preview not running. Start it with: python markdown_preview.py --socket-path ".data,
    [], ?_⟩
  simp [String.data_append]
